import Mathlib

/-!
Verification of the `mkdocs-extra-sass-plugin` repository
(`mkdocs_extra_sass_plugin/plugin.py`).

The development shallowly embeds the plugin's core: the entry locator
(`_SassEntry.search_entry_point`), the entry variants (`_NoSassEntry`,
`_AvailableSassEntry`), the compile-and-write step (`save_to` with its
`fix_umask` helper), the coordinator (`ExtraSassPlugin._entry_point`,
`_build_entry`, `on_config`), the page hook (`on_post_page`) and the serve
hook (`on_serve`).

External collaborators (the filesystem, the libsass compiler, the
BeautifulSoup HTML document model, mkdocs' `normalize_url`, the tempfile
name generator) are modelled as explicit parameters: a `FileSystem` record
of existence predicates, a `Compiler` record returning `Except`, an
`HtmlLib` parse/render pair, an abstract normalize function, and the random
part of the temporary filename.  Python's `str`-or-`None` values are
`Option String`; Python exceptions are `Except String`.
-/

set_option maxRecDepth 100000

/-- Model of `posixpath` behaviour: does the string start with a slash. -/
def startsWithSlash (s : String) : Bool :=
  match s.data with
  | [] => false
  | c :: _ => c == '/'

/-- Model of `posixpath` behaviour: does the string end with a slash. -/
def endsWithSlash (s : String) : Bool :=
  match s.data.getLast? with
  | some c => c == '/'
  | none => false

/-- Model of `os.path.join(a, b)` on POSIX for two components: an absolute
second component replaces the first; otherwise the parts are joined with a
single separator unless the first is empty or already ends in one. -/
def pathJoin (a b : String) : String :=
  if startsWithSlash b then b
  else if a = "" || endsWithSlash a then a ++ b
  else a ++ "/" ++ b

/-- The filesystem as the plugin queries it: `os.path.isdir` and
`os.path.isfile`. -/
structure FileSystem where
  isDir : String → Bool
  isFile : String → Bool

/-- The entry variants of the plugin: `_NoSassEntry`, and
`_AvailableSassEntry` with its constructor arguments `dirname`, `filename`
and the mutable `_relative_path` field (initially Python `None`, modelled
as `Option.none`). -/
inductive SassEntry where
  | noEntry : SassEntry
  | availableEntry (dirname : String) (filename : String)
      (relativePath : Option String) : SassEntry
deriving DecidableEq, Repr

/-- Class attribute `_SassEntry._styles_dir`. -/
def stylesDir : String := "extra_sass"

/-- Class attribute `_SassEntry._style_filenames`, in source order. -/
def styleFilenames : List String :=
  ["style.css.sass", "style.sass", "style.css.scss", "style.scss"]

/-- Embedding of `_SassEntry.search_entry_point`: if the styles directory
is a directory, return an available entry for the first listed filename
whose joined path is non-empty and is a regular file; otherwise no entry.
The Python loop with early return is `List.find?`. -/
def searchEntryPoint (fs : FileSystem) : SassEntry :=
  if fs.isDir stylesDir then
    match styleFilenames.find?
        (fun f => (!(pathJoin stylesDir f == ""))
          && fs.isFile (pathJoin stylesDir f)) with
    | some f => SassEntry.availableEntry stylesDir f none
    | none => SassEntry.noEntry
  else SassEntry.noEntry

/-- Property `is_available`: `False` on the base class (inherited by
`_NoSassEntry`), `True` on `_AvailableSassEntry`. -/
def SassEntry.is_available : SassEntry → Bool
  | SassEntry.noEntry => false
  | SassEntry.availableEntry _ _ _ => true

/-- Property `relative_path`: the base class returns the string `""`
(inherited by `_NoSassEntry`); `_AvailableSassEntry` returns its
`_relative_path` field, which is Python `None` until a successful
`save_to`. -/
def SassEntry.relative_path : SassEntry → Option String
  | SassEntry.noEntry => some ""
  | SassEntry.availableEntry _ _ rp => rp

/-- Python truthiness of a `str`-or-`None` value, as used by
`if not relative_path` in `on_post_page`. -/
def pyTruthy : Option String → Bool
  | none => false
  | some s => !(s == "")

/-- Model of `os.umask(m)` on a process whose current umask is `st`: the
previous mask is returned and the mask is set to `m`. -/
def osUmask (m : Nat) (st : Nat) : Nat × Nat := (st, m)

/-- Fuel-indexed bitwise and-not, structurally recursive so the kernel can
evaluate it on concrete inputs. -/
def pyAndNotAux : Nat → Nat → Nat → Nat
  | 0, _, _ => 0
  | fuel + 1, a, b =>
    (if a % 2 = 1 ∧ ¬b % 2 = 1 then 1 else 0)
      + 2 * pyAndNotAux fuel (a / 2) (b / 2)

/-- Python's `a & ~b` on non-negative integers: bit `i` of the result is
set iff bit `i` of `a` is set and bit `i` of `b` is not (proved below as
`pyAndNot_testBit`, and agreement with Mathlib's `Nat.ldiff` as
`pyAndNot_eq_ldiff`). -/
def pyAndNot (a b : Nat) : Nat := pyAndNotAux a a b

/-- Embedding of the `fix_umask` helper inside `save_to`: read the process
umask by setting it to `0o666` and immediately restoring it, then chmod the
temporary file to `0o666 & ~umask`.  Returns the chmod mode and the final
umask state. -/
def fix_umask (st0 : Nat) : Nat × Nat :=
  let r1 := osUmask 0o666 st0
  let umask := r1.1
  let r2 := osUmask umask r1.2
  (pyAndNot 0o666 umask, r2.2)

/-- The external libsass binding `sass.compile`, called with keyword
arguments `filename`, `source_map_filename` and `output_filename_hint`
(the remaining arguments are the fixed constants `output_style`,
`source_map_contents`, `omit_source_map_url`).  It returns a CSS text and
a source-map text, or fails. -/
structure Compiler where
  compile : String → String → String → Except String (String × String)

/-- Everything a successful `save_to` call produced: the returned info
dict (`src`, `dst`), the files written with their contents, the chmod mode
applied to the CSS temporary file, the umask after the fixup, and the
entry with its `_relative_path` field now set. -/
structure SaveResult where
  src : String
  dst : String
  cssPath : String
  cssFilename : String
  cssContents : String
  cssMode : Nat
  mapPath : String
  mapContents : String
  umaskAfter : Nat
  newEntry : SassEntry
deriving DecidableEq, Repr

/-- Embedding of `save_to`.  On the base class (inherited by
`_NoSassEntry`) it raises `AssertionError` before touching the filesystem.
On `_AvailableSassEntry` it creates the output directory, allocates a
temporary file `extra-style.<rand>.min.css` in it, widens its permissions
via `fix_umask`, compiles the source, writes the CSS and the
`<cssFilename>.map` source map, stores `dest_dir/<cssFilename>` into
`_relative_path`, and returns the info dict. -/
def saveTo (e : SassEntry) (comp : Compiler) (rand : String) (umask0 : Nat)
    (site_dir : String) (dest_dir : String) : Except String SaveResult :=
  match e with
  | SassEntry.noEntry => Except.error "AssertionError: DO NOT CALL HERE"
  | SassEntry.availableEntry d f _ =>
    let source_path := pathJoin d f
    let output_dir := pathJoin site_dir dest_dir
    let filename := "extra-style." ++ rand ++ ".min.css"
    let fixed := fix_umask umask0
    let source_map_filename := filename ++ ".map"
    match comp.compile source_path source_map_filename filename with
    | Except.error err => Except.error err
    | Except.ok css_and_map =>
      let rel := pathJoin dest_dir filename
      Except.ok
        { src := source_path
          dst := rel
          cssPath := pathJoin output_dir filename
          cssFilename := filename
          cssContents := css_and_map.1
          cssMode := fixed.1
          mapPath := pathJoin output_dir source_map_filename
          mapContents := css_and_map.2
          umaskAfter := fixed.2
          newEntry := SassEntry.availableEntry d f (some rel) }

/-- The two configuration values the plugin reads from the mkdocs
`Config`: `config["site_dir"]` and `config["strict"]`. -/
structure MkConfig where
  site_dir : String
  strict : Bool

/-- The constant `dest_dir = os.path.join("assets", "stylesheets")` of
`_build_entry`. -/
def destDirConst : String := pathJoin "assets" "stylesheets"

/-- The log records `_build_entry` emits: the info line on success, the
exception line on failure (always emitted before the strict check). -/
inductive LogMsg where
  | buildSuccess (dst : String) (src : String) : LogMsg
  | buildFailure (err : String) : LogMsg
deriving DecidableEq, Repr

/-- Embedding of `ExtraSassPlugin._build_entry`: locate the entry point;
if available, try `save_to` with the site dir and the fixed dest dir.  On
success log the mapping and return the (mutated) entry; on failure log the
exception and re-raise it only when `strict` is set, otherwise return the
entry with `_relative_path` still unset. -/
def build_entry (fs : FileSystem) (comp : Compiler) (rand : String)
    (umask0 : Nat) (config : MkConfig) :
    Except String SassEntry × List LogMsg :=
  let entry_point := searchEntryPoint fs
  if entry_point.is_available then
    match saveTo entry_point comp rand umask0 config.site_dir destDirConst with
    | Except.ok info =>
      (Except.ok info.newEntry, [LogMsg.buildSuccess info.dst info.src])
    | Except.error ex =>
      if config.strict then (Except.error ex, [LogMsg.buildFailure ex])
      else (Except.ok entry_point, [LogMsg.buildFailure ex])
  else (Except.ok entry_point, [])

/-- The plugin instance state: the private `__entry_point` field,
`None` until `_entry_point` first succeeds. -/
structure PluginState where
  entryPoint : Option SassEntry
deriving DecidableEq, Repr

/-- Embedding of `ExtraSassPlugin._entry_point`: return the memoized entry
if present; otherwise run `_build_entry` and memoize its result.  When
`_build_entry` raises, the exception propagates before the assignment, so
the state is unchanged. -/
def entryPointAccessor (fs : FileSystem) (comp : Compiler) (rand : String)
    (umask0 : Nat) (config : MkConfig) (st : PluginState) :
    Except String SassEntry × PluginState :=
  match st.entryPoint with
  | some ep => (Except.ok ep, st)
  | none =>
    match (build_entry fs comp rand umask0 config).1 with
    | Except.ok ep => (Except.ok ep, { entryPoint := some ep })
    | Except.error ex => (Except.error ex, st)

/-- Embedding of `ExtraSassPlugin.on_config`: reset `__entry_point` to
`None`. -/
def on_config (_st : PluginState) : PluginState := { entryPoint := none }

/-- A node in the BeautifulSoup document model, as far as the plugin
observes it: the `<link>` tags it creates, and everything else opaque. -/
inductive Tag where
  | link (href : String) (rel : String) : Tag
  | other (raw : String) : Tag
deriving DecidableEq, Repr

/-- The BeautifulSoup document: the children of `soup.head`, and the rest
of the document left opaque. -/
structure HtmlDoc where
  head : List Tag
  rest : String
deriving DecidableEq, Repr

/-- The external HTML library: `BeautifulSoup(content, 'html.parser')` and
`str(soup)`. -/
structure HtmlLib where
  parse : String → HtmlDoc
  render : HtmlDoc → String

/-- Embedding of the injection part of `ExtraSassPlugin.on_post_page`,
given the already-resolved entry: if `relative_path` is falsy (Python
`None` or `""`), return the rendered content unchanged; otherwise build a
`<link rel="stylesheet">` tag whose `href` is
`normalize_url(relative_path, page)` and append it to `soup.head`. -/
def on_post_page (lib : HtmlLib) (normalize : String → String → String)
    (entry : SassEntry) (output_content : String) (pageUrl : String) :
    String :=
  match entry.relative_path with
  | none => output_content
  | some rp =>
    if rp = "" then output_content
    else
      let href := normalize rp pageUrl
      let soup := lib.parse output_content
      lib.render
        { soup with head := soup.head ++ [Tag.link href "stylesheet"] }

/-- Embedding of the entry-level `on_serve` hook: the base class does
nothing (inherited by `_NoSassEntry`); `_AvailableSassEntry` registers
`server.watch(dirname, builder)` only if its source file still exists as a
regular file.  The result lists the watch registrations performed. -/
def SassEntry.on_serve {β : Type} (fs : FileSystem) (e : SassEntry)
    (builder : β) : List (String × β) :=
  match e with
  | SassEntry.noEntry => []
  | SassEntry.availableEntry d f _ =>
    if fs.isFile (pathJoin d f) then [(d, builder)] else []

/-! Concrete filesystem, compiler, configuration and HTML-library
instances used to evaluate the theorems on closed inputs. -/

/-- A filesystem whose styles directory holds only `style.css.sass`. -/
def fsSass : FileSystem :=
  { isDir := fun d => d == "extra_sass"
    isFile := fun p => p == "extra_sass/style.css.sass" }

/-- A filesystem whose styles directory holds only `style.scss`. -/
def fsScss : FileSystem :=
  { isDir := fun d => d == "extra_sass"
    isFile := fun p => p == "extra_sass/style.scss" }

/-- A filesystem whose styles directory holds both `style.sass` and
`style.scss`. -/
def fsBoth : FileSystem :=
  { isDir := fun d => d == "extra_sass"
    isFile := fun p =>
      p == "extra_sass/style.sass" || p == "extra_sass/style.scss" }

/-- A filesystem with no styles directory at all. -/
def fsNoDir : FileSystem := { isDir := fun _ => false, isFile := fun _ => false }

/-- A filesystem whose styles directory exists but holds no recognized
filename. -/
def fsEmptyDir : FileSystem :=
  { isDir := fun d => d == "extra_sass", isFile := fun _ => false }

/-- A compiler that always succeeds. -/
def okComp : Compiler :=
  { compile := fun _ _ _ => Except.ok ("css-text", "map-text") }

/-- A compiler that always fails. -/
def failComp : Compiler := { compile := fun _ _ _ => Except.error "boom" }

/-- A strict-mode configuration. -/
def cfgStrict : MkConfig := { site_dir := "site", strict := true }

/-- A non-strict configuration. -/
def cfgLoose : MkConfig := { site_dir := "site", strict := false }

/-- A concrete HTML library whose rendering records the head length, so
that appended links are observable. -/
def sampleLib : HtmlLib :=
  { parse := fun s => { head := [], rest := s }
    render := fun d => toString d.head.length ++ ":" ++ d.rest }

/-- A concrete stand-in for mkdocs `normalize_url`. -/
def sampleNorm (rp : String) (url : String) : String := url ++ "/" ++ rp

/-- The `SaveResult` that `saveTo` produces for a `style.scss` entry with
random part `R`, umask `0o022` and site dir `site` under `okComp`. -/
def sampleSave : SaveResult :=
  { src := "extra_sass/style.scss"
    dst := "assets/stylesheets/extra-style.R.min.css"
    cssPath := "site/assets/stylesheets/extra-style.R.min.css"
    cssFilename := "extra-style.R.min.css"
    cssContents := "css-text"
    cssMode := 0o644
    mapPath := "site/assets/stylesheets/extra-style.R.min.css.map"
    mapContents := "map-text"
    umaskAfter := 0o022
    newEntry := SassEntry.availableEntry "extra_sass" "style.scss"
      (some "assets/stylesheets/extra-style.R.min.css") }

/-! Helper lemmas. -/

/-- Bit `i` of the fuel-indexed and-not, provided the fuel bounds the
first argument. -/
lemma pyAndNotAux_testBit :
    ∀ (fuel a b i : Nat), a < 2 ^ fuel →
      (pyAndNotAux fuel a b).testBit i = (a.testBit i && !b.testBit i)
  | 0, a, b, i, h => by
    have ha : a = 0 := by simpa using h
    subst ha
    simp [pyAndNotAux]
  | fuel + 1, a, b, i, h => by
    have hdiv : a / 2 < 2 ^ fuel := by
      have h2 : (2 : Nat) ^ (fuel + 1) = 2 ^ fuel * 2 := by ring
      omega
    cases i with
    | zero =>
      rw [pyAndNotAux, Nat.testBit_zero, Nat.testBit_zero, Nat.testBit_zero]
      by_cases hb : b % 2 = 1 <;> by_cases ha : a % 2 = 1 <;>
        simp [ha, hb]
    | succ i =>
      rw [pyAndNotAux, Nat.testBit_succ, Nat.testBit_succ, Nat.testBit_succ]
      have hq : ((if a % 2 = 1 ∧ ¬b % 2 = 1 then 1 else 0)
          + 2 * pyAndNotAux fuel (a / 2) (b / 2)) / 2
          = pyAndNotAux fuel (a / 2) (b / 2) := by
        split <;> omega
      rw [hq]
      exact pyAndNotAux_testBit fuel (a / 2) (b / 2) i hdiv

/-- Bit `i` of `pyAndNot a b` is bit `i` of `a` and not bit `i` of `b`:
`pyAndNot` really is Python's `a & ~b`. -/
lemma pyAndNot_testBit (a b i : Nat) :
    (pyAndNot a b).testBit i = (a.testBit i && !b.testBit i) :=
  pyAndNotAux_testBit a a b i (Nat.lt_two_pow a)

/-- `pyAndNot` agrees with Mathlib's bitwise and-not. -/
lemma pyAndNot_eq_ldiff (a b : Nat) : pyAndNot a b = Nat.ldiff a b :=
  Nat.eq_of_testBit_eq fun i => by
    rw [pyAndNot_testBit, Nat.testBit_ldiff]

/-- `List.find?` returns the head of the suffix when everything before it
fails the predicate and it passes. -/
lemma find?_first_hit {α : Type} (p : α → Bool) :
    ∀ (pre : List α) (f : α) (post : List α),
      (∀ g ∈ pre, p g = false) → p f = true →
      List.find? p (pre ++ f :: post) = some f
  | [], f, post, _, hf => by simp [List.find?_cons, hf]
  | g :: pre, f, post, hpre, hf => by
    have hg : p g = false := hpre g (List.mem_cons_self g pre)
    simp only [List.cons_append, List.find?_cons, hg]
    exact find?_first_hit p pre f post
      (fun x hx => hpre x (List.mem_cons_of_mem g hx)) hf

/-- Every result of the locator is either `NoEntry` or an available entry
in the styles directory with an unset relative path. -/
lemma searchEntryPoint_shape (fs : FileSystem) :
    searchEntryPoint fs = SassEntry.noEntry ∨
      ∃ f, f ∈ styleFilenames ∧
        fs.isFile (pathJoin stylesDir f) = true ∧
        searchEntryPoint fs = SassEntry.availableEntry stylesDir f none := by
  unfold searchEntryPoint
  by_cases hd : fs.isDir stylesDir
  · simp only [hd, if_true]
    cases hfind : styleFilenames.find?
        (fun f => (!(pathJoin stylesDir f == "")) &&
          fs.isFile (pathJoin stylesDir f)) with
    | none => exact Or.inl rfl
    | some f =>
      refine Or.inr ⟨f, List.mem_of_find?_eq_some hfind, ?_, rfl⟩
      have hp := List.find?_some hfind
      simp only [Bool.and_eq_true] at hp
      exact hp.2
  · simp [hd]

/-- If the locator returns an available entry, its relative path is
`None`. -/
lemma searchEntryPoint_relative_path (fs : FileSystem)
    (h : (searchEntryPoint fs).is_available = true) :
    (searchEntryPoint fs).relative_path = none := by
  rcases searchEntryPoint_shape fs with hno | ⟨f, _, _, hav⟩
  · rw [hno] at h
    simp [SassEntry.is_available] at h
  · rw [hav]
    rfl

/-! Claim theorems. -/

/-- C1: for every filesystem state, `search_entry_point` returns an
available entry carrying the styles directory `extra_sass` and the
earliest filename in the fixed order `style.css.sass`, `style.sass`,
`style.css.scss`, `style.scss` that exists as a regular file in that
directory; if the styles directory does not exist as a directory, or none
of the four recognized filenames exists there, it returns `NoEntry`. -/
theorem search_entry_point_correct (fs : FileSystem) :
    (fs.isDir stylesDir = false → searchEntryPoint fs = SassEntry.noEntry) ∧
    (fs.isDir stylesDir = true →
      ((∀ f ∈ styleFilenames, fs.isFile (pathJoin stylesDir f) = false) →
        searchEntryPoint fs = SassEntry.noEntry) ∧
      (∀ pre f post, styleFilenames = pre ++ f :: post →
        fs.isFile (pathJoin stylesDir f) = true →
        (∀ g ∈ pre, fs.isFile (pathJoin stylesDir g) = false) →
        searchEntryPoint fs = SassEntry.availableEntry stylesDir f none)) := by
  constructor
  · intro h
    unfold searchEntryPoint
    simp [h]
  · intro hd
    constructor
    · intro hall
      unfold searchEntryPoint
      simp only [hd, if_true]
      have hnone : styleFilenames.find?
          (fun f => (!(pathJoin stylesDir f == ""))
            && fs.isFile (pathJoin stylesDir f)) = none := by
        rw [List.find?_eq_none]
        intro x hx
        simp [hall x hx]
      rw [hnone]
    · intro pre f post hdecomp hf hpre
      unfold searchEntryPoint
      simp only [hd, if_true]
      have hmem : f ∈ styleFilenames := by
        rw [hdecomp]
        exact List.mem_append_right pre (List.mem_cons_self f post)
      have hallne : ∀ g ∈ styleFilenames,
          (pathJoin stylesDir g == "") = false := by decide
      have hfind : styleFilenames.find?
          (fun f => (!(pathJoin stylesDir f == ""))
            && fs.isFile (pathJoin stylesDir f)) = some f := by
        rw [hdecomp]
        apply find?_first_hit
        · intro g hg
          have hgf := hpre g hg
          simp [hgf]
        · simp [hallne f hmem, hf]
      rw [hfind]

/-- Closed-input check of `search_entry_point_correct`: a missing styles
directory, an empty styles directory, and a directory holding both
`style.sass` and `style.scss` (priority picks `style.sass`). -/
theorem search_entry_point_correct_witness :
    searchEntryPoint fsNoDir = SassEntry.noEntry ∧
    searchEntryPoint fsEmptyDir = SassEntry.noEntry ∧
    searchEntryPoint fsBoth
      = SassEntry.availableEntry "extra_sass" "style.sass" none := by
  refine ⟨(search_entry_point_correct fsNoDir).1 (by decide),
    ((search_entry_point_correct fsEmptyDir).2 (by decide)).1 (by decide),
    ?_⟩
  exact ((search_entry_point_correct fsBoth).2 (by decide)).2
    ["style.css.sass"] "style.sass" ["style.css.scss", "style.scss"]
    (by decide) (by decide) (by decide)

/-- The generated CSS filename never begins with a slash, whatever the
random middle part is. -/
lemma startsWithSlash_extra (rand : String) :
    startsWithSlash ("extra-style." ++ rand ++ ".min.css") = false := by
  cases rand with
  | mk l => rfl

/-- Joining the fixed destination directory with a non-absolute filename
is plain concatenation with one separator. -/
lemma pathJoin_destDir (b : String) (hb : startsWithSlash b = false) :
    pathJoin destDirConst b = "assets/stylesheets/" ++ b := by
  have hd : destDirConst = "assets/stylesheets" := by decide
  rw [hd]
  unfold pathJoin
  rw [hb]
  have h1 : (("assets/stylesheets" : String) = "" || endsWithSlash "assets/stylesheets") = false := by
    decide
  simp only [Bool.false_eq_true, if_false, h1]
  have h2 : ("assets/stylesheets" : String) ++ "/" = "assets/stylesheets/" := by
    decide
  calc "assets/stylesheets" ++ "/" ++ b
      = ("assets/stylesheets" ++ "/") ++ b := rfl
    _ = "assets/stylesheets/" ++ b := by rw [h2]

/-- C2: when `save_to` fails during entry-point resolution, `_build_entry`
logs the exception and re-raises it iff `strict` is set; with `strict`
unset the exception is swallowed, the returned entry's `relative_path`
remains unset, and every subsequently rendered page comes back from
`on_post_page` unchanged, with no stylesheet link injected. -/
theorem build_entry_failure_strictness (fs : FileSystem) (comp : Compiler)
    (rand : String) (umask : Nat) (cfg : MkConfig) (ex : String)
    (hav : (searchEntryPoint fs).is_available = true)
    (herr : saveTo (searchEntryPoint fs) comp rand umask cfg.site_dir
      destDirConst = Except.error ex) :
    (build_entry fs comp rand umask cfg).2 = [LogMsg.buildFailure ex] ∧
    (cfg.strict = true →
      (build_entry fs comp rand umask cfg).1 = Except.error ex) ∧
    (cfg.strict = false →
      (build_entry fs comp rand umask cfg).1
        = Except.ok (searchEntryPoint fs) ∧
      (searchEntryPoint fs).relative_path = none ∧
      pyTruthy (searchEntryPoint fs).relative_path = false ∧
      ∀ (lib : HtmlLib) (normalize : String → String → String)
        (content url : String),
        on_post_page lib normalize (searchEntryPoint fs) content url
          = content) := by
  have hb : build_entry fs comp rand umask cfg
      = (if cfg.strict
          then (Except.error ex, [LogMsg.buildFailure ex])
          else (Except.ok (searchEntryPoint fs), [LogMsg.buildFailure ex])) := by
    simp [build_entry, hav, herr]
  have hrp : (searchEntryPoint fs).relative_path = none :=
    searchEntryPoint_relative_path fs hav
  refine ⟨?_, ?_, ?_⟩
  · rw [hb]
    cases cfg.strict <;> rfl
  · intro hs
    rw [hb, hs]
    rfl
  · intro hs
    rw [hb, hs]
    refine ⟨rfl, hrp, by rw [hrp]; rfl, ?_⟩
    intro lib normalize content url
    simp [on_post_page, hrp]

/-- Closed-input check of `build_entry_failure_strictness`: a failing
compiler aborts a strict build, while a non-strict build proceeds with the
unset entry and pages pass through `on_post_page` untouched. -/
theorem build_entry_failure_strictness_witness :
    (build_entry fsSass failComp "R" 18 cfgStrict).1 = Except.error "boom" ∧
    (build_entry fsSass failComp "R" 18 cfgStrict).2
      = [LogMsg.buildFailure "boom"] ∧
    (build_entry fsSass failComp "R" 18 cfgLoose).1
      = Except.ok (searchEntryPoint fsSass) ∧
    on_post_page sampleLib sampleNorm (searchEntryPoint fsSass) "page" "url"
      = "page" := by
  have hs := build_entry_failure_strictness fsSass failComp "R" 18 cfgStrict
    "boom" rfl rfl
  have hl := build_entry_failure_strictness fsSass failComp "R" 18 cfgLoose
    "boom" rfl rfl
  exact ⟨hs.2.1 rfl, hs.1, (hl.2.2 rfl).1,
    (hl.2.2 rfl).2.2.2 sampleLib sampleNorm "page" "url"⟩

/-- C3: within one build cycle the entry point is computed at most once:
with a memoized entry the accessor returns it untouched, whatever the
environment; on the first access it runs `_build_entry` (locate plus
compile) and memoizes the produced entry; and after `on_config` resets the
cache the next access re-runs `_build_entry` from scratch. -/
theorem entry_point_memoization (fs : FileSystem) (comp : Compiler)
    (rand : String) (umask : Nat) (cfg : MkConfig) (st : PluginState) :
    (∀ ep, st.entryPoint = some ep →
      entryPointAccessor fs comp rand umask cfg st = (Except.ok ep, st)) ∧
    (∀ ep, st.entryPoint = none →
      (build_entry fs comp rand umask cfg).1 = Except.ok ep →
      entryPointAccessor fs comp rand umask cfg st
        = (Except.ok ep, { entryPoint := some ep })) ∧
    ((on_config st).entryPoint = none ∧
      (entryPointAccessor fs comp rand umask cfg (on_config st)).1
        = (build_entry fs comp rand umask cfg).1) := by
  refine ⟨?_, ?_, rfl, ?_⟩
  · intro ep h
    simp [entryPointAccessor, h]
  · intro ep h hb
    simp [entryPointAccessor, h, hb]
  · show (entryPointAccessor fs comp rand umask cfg { entryPoint := none }).1
      = (build_entry fs comp rand umask cfg).1
    cases hb : (build_entry fs comp rand umask cfg).1 <;>
      simp [entryPointAccessor, hb]

/-- Closed-input check of `entry_point_memoization`: a memoized entry is
returned as-is, and a fresh state memoizes the built entry. -/
theorem entry_point_memoization_witness :
    entryPointAccessor fsSass okComp "R" 18 cfgLoose
        { entryPoint := some (SassEntry.availableEntry "extra_sass"
            "style.scss" (some "p")) }
      = (Except.ok (SassEntry.availableEntry "extra_sass" "style.scss"
            (some "p")),
         { entryPoint := some (SassEntry.availableEntry "extra_sass"
            "style.scss" (some "p")) }) ∧
    entryPointAccessor fsSass okComp "R" 18 cfgLoose { entryPoint := none }
      = (Except.ok (SassEntry.availableEntry "extra_sass" "style.css.sass"
            (some "assets/stylesheets/extra-style.R.min.css")),
         { entryPoint := some (SassEntry.availableEntry "extra_sass"
            "style.css.sass"
            (some "assets/stylesheets/extra-style.R.min.css")) }) :=
  ⟨(entry_point_memoization fsSass okComp "R" 18 cfgLoose _).1 _ rfl,
   (entry_point_memoization fsSass okComp "R" 18 cfgLoose _).2.1 _ rfl rfl⟩

/-- C7 counterexample: in strict mode with a failing compiler, the first
accessor call raises and leaves the coordinator UNresolved
(`entryPoint = none`), and a later call in the same cycle re-attempts
compilation (here succeeding with a fresh compiler), contradicting the
claim that the coordinator is Resolved regardless of the compile outcome
and never re-attempts compilation within the cycle. -/
theorem resolved_state_counterexample :
    entryPointAccessor fsSass failComp "R" 18 cfgStrict { entryPoint := none }
      = (Except.error "boom", { entryPoint := none }) ∧
    (entryPointAccessor fsSass okComp "R2" 18 cfgStrict
        { entryPoint := none }).1
      = Except.ok (SassEntry.availableEntry "extra_sass" "style.css.sass"
          (some "assets/stylesheets/extra-style.R2.min.css")) :=
  ⟨rfl, rfl⟩

/-- C7 as amended: once the accessor RETURNS NORMALLY (compile success, or
failure with `strict` unset), the coordinator is Resolved and no later
call within the cycle re-attempts compilation; when the accessor raises
(strict compile failure) the coordinator instead stays Uncomputed and the
exception propagates, aborting the build. -/
theorem resolved_state_after_normal_return (fs : FileSystem)
    (comp : Compiler) (rand : String) (umask : Nat) (cfg : MkConfig)
    (st : PluginState) :
    (∀ ep, (entryPointAccessor fs comp rand umask cfg st).1 = Except.ok ep →
      (entryPointAccessor fs comp rand umask cfg st).2
        = { entryPoint := some ep } ∧
      ∀ (fs2 : FileSystem) (comp2 : Compiler) (rand2 : String) (umask2 : Nat)
        (cfg2 : MkConfig),
        entryPointAccessor fs2 comp2 rand2 umask2 cfg2
            { entryPoint := some ep }
          = (Except.ok ep, { entryPoint := some ep })) ∧
    (∀ ex, (entryPointAccessor fs comp rand umask cfg st).1
        = Except.error ex →
      (entryPointAccessor fs comp rand umask cfg st).2 = st ∧
      st.entryPoint = none) := by
  cases st with
  | mk sep =>
    cases sep with
    | some e =>
      refine ⟨?_, ?_⟩
      · intro ep h
        have he : e = ep := by
          simpa [entryPointAccessor] using h
        subst he
        exact ⟨rfl, fun fs2 comp2 rand2 umask2 cfg2 => rfl⟩
      · intro ex h
        simp [entryPointAccessor] at h
    | none =>
      refine ⟨?_, ?_⟩
      · intro ep h
        cases hb : (build_entry fs comp rand umask cfg).1 with
        | error ex =>
          rw [show entryPointAccessor fs comp rand umask cfg
              { entryPoint := none }
              = (Except.error ex, { entryPoint := none }) by
            simp [entryPointAccessor, hb]] at h
          cases h
        | ok e =>
          have hacc : entryPointAccessor fs comp rand umask cfg
              { entryPoint := none }
              = (Except.ok e, { entryPoint := some e }) := by
            simp [entryPointAccessor, hb]
          rw [hacc] at h ⊢
          cases h
          exact ⟨rfl, fun fs2 comp2 rand2 umask2 cfg2 => rfl⟩
      · intro ex h
        cases hb : (build_entry fs comp rand umask cfg).1 with
        | error ex2 =>
          simp [entryPointAccessor, hb]
        | ok e =>
          rw [show entryPointAccessor fs comp rand umask cfg
              { entryPoint := none }
              = (Except.ok e, { entryPoint := some e }) by
            simp [entryPointAccessor, hb]] at h
          cases h

/-- Closed-input check of `resolved_state_after_normal_return`: a normal
return memoizes the entry and later calls never re-attempt compilation;
an erroring call leaves the state untouched. -/
theorem resolved_state_after_normal_return_witness :
    (entryPointAccessor fsSass okComp "R" 18 cfgLoose
        { entryPoint := none }).2
      = { entryPoint := some (SassEntry.availableEntry "extra_sass"
          "style.css.sass"
          (some "assets/stylesheets/extra-style.R.min.css")) } ∧
    entryPointAccessor fsScss failComp "Q" 7 cfgStrict
        { entryPoint := some (SassEntry.availableEntry "extra_sass"
          "style.css.sass"
          (some "assets/stylesheets/extra-style.R.min.css")) }
      = (Except.ok (SassEntry.availableEntry "extra_sass" "style.css.sass"
            (some "assets/stylesheets/extra-style.R.min.css")),
         { entryPoint := some (SassEntry.availableEntry "extra_sass"
            "style.css.sass"
            (some "assets/stylesheets/extra-style.R.min.css")) }) ∧
    (entryPointAccessor fsSass failComp "R" 18 cfgStrict
        { entryPoint := none }).2 = { entryPoint := none } := by
  have h := (resolved_state_after_normal_return fsSass okComp "R" 18
    cfgLoose { entryPoint := none }).1
    (SassEntry.availableEntry "extra_sass" "style.css.sass"
      (some "assets/stylesheets/extra-style.R.min.css")) rfl
  have herr := (resolved_state_after_normal_return fsSass failComp "R" 18
    cfgStrict { entryPoint := none }).2 "boom" rfl
  exact ⟨h.1, h.2 fsScss failComp "Q" 7 cfgStrict, herr.1⟩

/-- C4: on success `save_to` writes the compiled CSS to a file under
`siteDir/assets/stylesheets` whose name has the shape
`extra-style.<mid>.min.css`, writes the source map to a sibling file named
`<cssFilename>.map`, stores the relative path
`assets/stylesheets/<cssFilename>` onto the entry, and returns that same
value as the destination. -/
theorem save_to_success_paths (d f : String) (rp : Option String)
    (comp : Compiler) (rand : String) (umask : Nat) (site_dir : String)
    (r : SaveResult)
    (h : saveTo (SassEntry.availableEntry d f rp) comp rand umask site_dir
      destDirConst = Except.ok r) :
    r.cssFilename = "extra-style." ++ rand ++ ".min.css" ∧
    (∃ mid, r.cssFilename = "extra-style." ++ mid ++ ".min.css") ∧
    r.cssPath = pathJoin (pathJoin site_dir destDirConst) r.cssFilename ∧
    r.mapPath
      = pathJoin (pathJoin site_dir destDirConst) (r.cssFilename ++ ".map") ∧
    r.dst = "assets/stylesheets/" ++ r.cssFilename ∧
    r.dst = pathJoin destDirConst r.cssFilename ∧
    r.newEntry.relative_path = some r.dst := by
  simp only [saveTo] at h
  cases hc : comp.compile (pathJoin d f)
      ("extra-style." ++ rand ++ ".min.css" ++ ".map")
      ("extra-style." ++ rand ++ ".min.css") with
  | error err =>
    rw [hc] at h
    cases h
  | ok cm =>
    rw [hc] at h
    cases h
    exact ⟨rfl, ⟨rand, rfl⟩, rfl, rfl,
      pathJoin_destDir _ (startsWithSlash_extra rand), rfl, rfl⟩

/-- Closed-input check of `save_to_success_paths` on `sampleSave`. -/
theorem save_to_success_paths_witness :
    saveTo (SassEntry.availableEntry "extra_sass" "style.scss" none) okComp
        "R" 18 "site" destDirConst = Except.ok sampleSave ∧
    sampleSave.dst = "assets/stylesheets/" ++ sampleSave.cssFilename ∧
    sampleSave.mapPath
      = pathJoin (pathJoin "site" destDirConst)
          (sampleSave.cssFilename ++ ".map") ∧
    sampleSave.newEntry.relative_path = some sampleSave.dst := by
  have h := save_to_success_paths "extra_sass" "style.scss" none okComp "R"
    18 "site" sampleSave rfl
  exact ⟨rfl, h.2.2.2.2.1, h.2.2.2.1, h.2.2.2.2.2.2⟩

/-- C8: every successful `save_to` chmods the generated CSS file to
`0o666 & ~umask` (bit `i` set iff bit `i` of `0o666` is set and bit `i` of
the umask is not), and the process umask is left unchanged by the
fixup. -/
theorem save_to_permissions (d f : String) (rp : Option String)
    (comp : Compiler) (rand : String) (umask : Nat)
    (site_dir dest_dir : String) (r : SaveResult)
    (h : saveTo (SassEntry.availableEntry d f rp) comp rand umask site_dir
      dest_dir = Except.ok r) :
    r.cssMode = pyAndNot 0o666 umask ∧
    (∀ i, r.cssMode.testBit i
      = ((0o666 : Nat).testBit i && !umask.testBit i)) ∧
    r.umaskAfter = umask := by
  simp only [saveTo] at h
  cases hc : comp.compile (pathJoin d f)
      ("extra-style." ++ rand ++ ".min.css" ++ ".map")
      ("extra-style." ++ rand ++ ".min.css") with
  | error err =>
    rw [hc] at h
    cases h
  | ok cm =>
    rw [hc] at h
    cases h
    exact ⟨rfl, fun i => pyAndNot_testBit 0o666 umask i, rfl⟩

/-- Closed-input check of `save_to_permissions`: with umask `0o022` the
CSS file gets mode `0o644` and the umask stays `0o022`. -/
theorem save_to_permissions_witness :
    sampleSave.cssMode = pyAndNot 0o666 0o022 ∧
    sampleSave.cssMode = 0o644 ∧
    sampleSave.umaskAfter = 0o022 := by
  have h := save_to_permissions "extra_sass" "style.scss" none okComp "R"
    0o022 "site" destDirConst sampleSave rfl
  exact ⟨h.1, rfl, h.2.2⟩

/-- C5: the page hook returns the input content itself when the resolved
entry's `relative_path` is falsy (Python `None` or `""`); otherwise it
returns the rendering of the parsed document with exactly one
`<link rel="stylesheet">` appended to its head, whose `href` is the
asset path normalized against the page URL. -/
theorem on_post_page_injection (lib : HtmlLib)
    (normalize : String → String → String) (entry : SassEntry)
    (content url : String) :
    (pyTruthy entry.relative_path = false →
      on_post_page lib normalize entry content url = content) ∧
    (∀ rp, entry.relative_path = some rp → ¬rp = "" →
      on_post_page lib normalize entry content url
        = lib.render
            { head := (lib.parse content).head
                ++ [Tag.link (normalize rp url) "stylesheet"]
              rest := (lib.parse content).rest }) := by
  constructor
  · intro h
    cases hrp : entry.relative_path with
    | none => simp [on_post_page, hrp]
    | some s =>
      rw [hrp] at h
      have hs : s = "" := by simpa [pyTruthy] using h
      subst hs
      simp [on_post_page, hrp]
  · intro rp hrp hne
    simp [on_post_page, hrp, hne]

/-- Closed-input check of `on_post_page_injection`: `NoEntry` and a
pre-compile available entry leave the page alone; a resolved path is
injected. -/
theorem on_post_page_injection_witness :
    on_post_page sampleLib sampleNorm SassEntry.noEntry "page" "u"
      = "page" ∧
    on_post_page sampleLib sampleNorm
        (SassEntry.availableEntry "extra_sass" "style.scss" none) "page" "u"
      = "page" ∧
    on_post_page sampleLib sampleNorm
        (SassEntry.availableEntry "extra_sass" "style.scss"
          (some "assets/x.css")) "page" "u"
      = sampleLib.render
          { head := (sampleLib.parse "page").head
              ++ [Tag.link (sampleNorm "assets/x.css" "u") "stylesheet"]
            rest := (sampleLib.parse "page").rest } := by
  refine ⟨(on_post_page_injection sampleLib sampleNorm SassEntry.noEntry
      "page" "u").1 rfl,
    (on_post_page_injection sampleLib sampleNorm
      (SassEntry.availableEntry "extra_sass" "style.scss" none)
      "page" "u").1 rfl,
    (on_post_page_injection sampleLib sampleNorm
      (SassEntry.availableEntry "extra_sass" "style.scss"
        (some "assets/x.css")) "page" "u").2 "assets/x.css" rfl (by decide)⟩

/-- C6 counterexample: the locator's available entry for `style.scss` is a
reachable pre-`save_to` entry whose `relative_path` accessor yields Python
`None`, not the empty string, so the claim that the accessor yields the
empty string until `save_to` succeeds is false. -/
theorem relative_path_unset_counterexample :
    searchEntryPoint fsScss
      = SassEntry.availableEntry "extra_sass" "style.scss" none ∧
    (searchEntryPoint fsScss).relative_path = none ∧
    ¬(searchEntryPoint fsScss).relative_path = some "" :=
  ⟨rfl, rfl, by decide⟩

/-- C6 as amended: the accessor yields a FALSY value until `save_to`
succeeds — always the empty string for `NoEntry`, but Python `None` (not
the empty string) for an `AvailableEntry` before its first successful
`save_to`; after success it equals the recorded destination, and the
memoized entry is returned unchanged by every later access in the
cycle. -/
theorem relative_path_lifecycle :
    SassEntry.noEntry.relative_path = some "" ∧
    (∀ d f, (SassEntry.availableEntry d f none).relative_path = none) ∧
    (∀ fs, pyTruthy (searchEntryPoint fs).relative_path = false) ∧
    (∀ e comp rand umask site dest r,
      saveTo e comp rand umask site dest = Except.ok r →
      r.newEntry.relative_path = some r.dst) ∧
    (∀ fs comp rand umask cfg ep,
      entryPointAccessor fs comp rand umask cfg { entryPoint := some ep }
        = (Except.ok ep, { entryPoint := some ep })) := by
  refine ⟨rfl, fun d f => rfl, ?_, ?_,
    fun fs comp rand umask cfg ep => rfl⟩
  · intro fs
    rcases searchEntryPoint_shape fs with hno | ⟨f, _, _, hav⟩
    · rw [hno]
      rfl
    · rw [hav]
      rfl
  · intro e comp rand umask site dest r h
    cases e with
    | noEntry => cases h
    | availableEntry d f rp =>
      simp only [saveTo] at h
      cases hc : comp.compile (pathJoin d f)
          ("extra-style." ++ rand ++ ".min.css" ++ ".map")
          ("extra-style." ++ rand ++ ".min.css") with
      | error err =>
        rw [hc] at h
        cases h
      | ok cm =>
        rw [hc] at h
        cases h
        rfl

/-- Closed-input check of `relative_path_lifecycle`. -/
theorem relative_path_lifecycle_witness :
    pyTruthy (searchEntryPoint fsScss).relative_path = false ∧
    sampleSave.newEntry.relative_path = some sampleSave.dst ∧
    entryPointAccessor fsScss okComp "R" 18 cfgLoose
        { entryPoint := some sampleSave.newEntry }
      = (Except.ok sampleSave.newEntry,
         { entryPoint := some sampleSave.newEntry }) := by
  have h := relative_path_lifecycle
  exact ⟨h.2.2.1 fsScss,
    h.2.2.2.1 (SassEntry.availableEntry "extra_sass" "style.scss" none)
      okComp "R" 18 "site" destDirConst sampleSave rfl,
    h.2.2.2.2 fsScss okComp "R" 18 cfgLoose sampleSave.newEntry⟩

/-- C9: the serve hook registers the styles directory with the watcher,
bound to the rebuild callback, iff the entry is available and its source
file still exists as a regular file; a `NoEntry`, or an available entry
whose source has disappeared, registers nothing. -/
theorem on_serve_watch {β : Type} (fs : FileSystem) (e : SassEntry)
    (builder : β) :
    (e = SassEntry.noEntry → SassEntry.on_serve fs e builder = []) ∧
    (∀ d f rp, e = SassEntry.availableEntry d f rp →
      (fs.isFile (pathJoin d f) = true →
        SassEntry.on_serve fs e builder = [(d, builder)]) ∧
      (fs.isFile (pathJoin d f) = false →
        SassEntry.on_serve fs e builder = [])) := by
  constructor
  · intro h
    subst h
    rfl
  · intro d f rp h
    subst h
    constructor <;> intro hf <;> simp [SassEntry.on_serve, hf]

/-- Closed-input check of `on_serve_watch`: no watch for `NoEntry`, a
watch for a live source file, no watch when the source file is gone. -/
theorem on_serve_watch_witness :
    SassEntry.on_serve fsScss SassEntry.noEntry "builder" = [] ∧
    SassEntry.on_serve fsScss
        (SassEntry.availableEntry "extra_sass" "style.scss" none) "builder"
      = [("extra_sass", "builder")] ∧
    SassEntry.on_serve fsSass
        (SassEntry.availableEntry "extra_sass" "style.scss" none) "builder"
      = [] := by
  refine ⟨(on_serve_watch fsScss SassEntry.noEntry "builder").1 rfl,
    ((on_serve_watch fsScss
      (SassEntry.availableEntry "extra_sass" "style.scss" none)
      "builder").2 "extra_sass" "style.scss" none rfl).1 rfl,
    ((on_serve_watch fsSass
      (SassEntry.availableEntry "extra_sass" "style.scss" none)
      "builder").2 "extra_sass" "style.scss" none rfl).2 rfl⟩

/-- C10: calling `save_to` on a `NoEntry` raises `AssertionError` for
every choice of arguments; the error is produced before any directory
creation or file write (all filesystem effects of `saveTo` live in the
`SaveResult`, which an erroring call never produces). -/
theorem save_to_no_entry_asserts (comp : Compiler) (rand : String)
    (umask : Nat) (site_dir dest_dir : String) :
    saveTo SassEntry.noEntry comp rand umask site_dir dest_dir
      = Except.error "AssertionError: DO NOT CALL HERE" := rfl
